import Mathlib

/-!
Verification of the form analysis and auto-fill pipeline of the
AI job-application auto-filler (backend/form_filler.py, backend/main.py).

Pure decision logic (field classification, profile-to-field value mapping,
diversity filling, submission-outcome classification, LLM fallback answers)
is embedded directly.  Calls that talk to the browser or to the OpenAI API
are modelled by oracle parameters recording the outcome of each external
call; the surrounding control flow is transcribed from the source.
-/

namespace AppFiller

/-! ### Python-style substring containment

`pySub sub hay` models the Python expression `sub in hay` on strings:
true iff `sub` occurs as a contiguous substring of `hay`. -/

def subAt (sub : List Char) : List Char → Bool
  | [] => sub.isEmpty
  | c :: t => sub.isPrefixOf (c :: t) || subAt sub t

def pySub (sub hay : String) : Bool := subAt sub.toList hay.toList

/-- Python `str.lower()`: `String.toLower` character by character, written
over the character list so that it evaluates inside the kernel. -/
def pyLower (s : String) : String := String.mk (s.toList.map Char.toLower)

/-! ### Field classification (form_filler.py, `_analyze_field`, lines 101-111)

The raw `type` attribute is refined by an ordered if/elif chain.  Note that
the "email" test looks at both name and placeholder, while the "phone"/"tel"
and "date" substring tests look at the name only. -/

def emailHit (name placeholder : String) : Bool :=
  pySub "email" (pyLower name) || pySub "email" (pyLower placeholder)

def phoneHit (name : String) : Bool :=
  pySub "phone" (pyLower name) || pySub "tel" (pyLower name)

def dateHit (name rawType : String) : Bool :=
  pySub "date" (pyLower name) || rawType == "date"

def analyzeFieldType (name placeholder rawType : String) : String :=
  if emailHit name placeholder then "email"
  else if phoneHit name then "phone"
  else if dateHit name rawType then "date"
  else if rawType == "file" then "file"
  else if rawType == "radio" || rawType == "checkbox" then "select"
  else rawType

/-- The raw `type` values that can reach `_analyze_field` from
`detect_form_fields`' selector list (lines 60-71): the eight input types;
`textarea` and `select` elements have no `type` attribute, so the
`or 'text'` default on line 94 turns them into raw `"text"`. -/
def rawScanTypes : List String :=
  ["text", "email", "tel", "number", "date", "file", "radio", "checkbox"]

/-! ### Data model (models.py) -/

structure Address where
  street : String
  city : String
  state : String
  zip_code : String
  country : String := "USA"
deriving DecidableEq

structure PersonalInfo where
  first_name : String
  last_name : String
  email : String
  phone : String
  address : Address
deriving DecidableEq

structure FormField where
  name : String
  type : String
  label : String := ""        -- a missing label is the empty string
  placeholder : String := ""
  required : Bool := false
deriving DecidableEq

/-! ### Profile-to-field value mapping (form_filler.py, lines 146-196) -/

/-- The mapping table of `fill_personal_info` (lines 150-159), in source
order: an ordered priority list of (semantic key, substring patterns). -/
def field_mappings : List (String × List String) :=
  [("first_name", ["first", "fname", "given"]),
   ("last_name", ["last", "lname", "surname", "family"]),
   ("email", ["email", "e-mail", "mail"]),
   ("phone", ["phone", "telephone", "mobile", "cell"]),
   ("address", ["address", "street", "addr"]),
   ("city", ["city", "town"]),
   ("state", ["state", "province", "region"]),
   ("zip_code", ["zip", "postal", "zipcode"])]

/-- The if/elif chain of `_get_field_value` (lines 179-194) mapping a
semantic key to a profile attribute; an unrecognized key returns nothing
(in the source, the chain falls through and the loop continues). -/
def infoValue (key : String) (p : PersonalInfo) : Option String :=
  if key == "first_name" then some p.first_name
  else if key == "last_name" then some p.last_name
  else if key == "email" then some p.email
  else if key == "phone" then some p.phone
  else if key == "address" then some p.address.street
  else if key == "city" then some p.address.city
  else if key == "state" then some p.address.state
  else if key == "zip_code" then some p.address.zip_code
  else none

/-- Line 178: `if pattern in field_name or pattern in field_label`, where
`fieldName` and `fieldLabel` are already lowercased by the caller. -/
def patHit (pat fieldName fieldLabel : String) : Bool :=
  pySub pat fieldName || pySub pat fieldLabel

/-- The inner pattern loop of `_get_field_value` for one rule: on a pattern
hit the profile attribute `v` is returned; a hit with an unrecognized key
falls through and the loop continues. -/
def tryRule (fieldName fieldLabel : String) (v : Option String) : List String → Option String
  | [] => none
  | pat :: rest =>
    if patHit pat fieldName fieldLabel then
      match v with
      | some x => some x
      | none => tryRule fieldName fieldLabel v rest
    else tryRule fieldName fieldLabel v rest

/-- The outer rule loop of `_get_field_value` (lines 176-196). -/
def getFieldValueAux (fieldName fieldLabel : String) (p : PersonalInfo) :
    List (String × List String) → Option String
  | [] => none
  | (key, pats) :: rest =>
    match tryRule fieldName fieldLabel (infoValue key p) pats with
    | some v => some v
    | none => getFieldValueAux fieldName fieldLabel p rest

/-- `_get_field_value` (lines 170-196): name and label are lowercased once
(lines 172-173; a missing label is treated as the empty string). -/
def getFieldValue (name label : String) (p : PersonalInfo) : Option String :=
  getFieldValueAux (pyLower name) (pyLower label) p field_mappings

/-- `fill_personal_info` (lines 161-165): only fields whose classified type
is `text`, `email` or `tel` are considered; a truthy (nonempty) mapped
value is filled.  Returns the ordered list of (field name, value) fills. -/
def fillPersonalInfo (fields : List FormField) (p : PersonalInfo) : List (String × String) :=
  fields.filterMap fun f =>
    if f.type == "text" || f.type == "email" || f.type == "tel" then
      match getFieldValue f.name f.label p with
      | some v => if v == "" then none else some (f.name, v)
      | none => none
    else none

/-! ### Diversity-question filling (form_filler.py, `fill_diversity_info`, lines 233-255) -/

/-- The category pattern groups (lines 237-242), in source order. -/
def diversity_patterns : List (String × List String) :=
  [("veteran", ["veteran", "military", "armed forces"]),
   ("disability", ["disability", "disabled", "accommodation"]),
   ("race", ["race", "ethnicity", "diversity"]),
   ("gender", ["gender", "sex"])]

/-- Python `dict.get(key, default)` on an association list. -/
def dictGet (d : List (String × String)) (k dflt : String) : String :=
  match d.find? (fun kv => kv.1 == k) with
  | some kv => kv.2
  | none => dflt

/-- `fill_diversity_info` (lines 244-252): for every known field, for every
category, for every pattern, a name/label hit triggers a fill with
`diversity_info.get(category, "Prefer not to say")`.  There is no break and
no first-match restriction: the result is the ordered list of all
(field name, value) fill actions performed. -/
def fillDiversityInfo (fields : List FormField) (dinfo : List (String × String)) :
    List (String × String) :=
  fields.flatMap fun f =>
    diversity_patterns.flatMap fun cp =>
      cp.2.filterMap fun pat =>
        if patHit pat (pyLower f.name) (pyLower f.label) then
          some (f.name, dictGet dinfo cp.1 "Prefer not to say")
        else none

/-! ### Open-ended questions and the text-generation collaborator
(form_filler.py lines 257-279, llm_service.py lines 30-112)

Each call to the LLM backend either returns text or raises; the oracle for
one call is an `LLMBackend` value.  `LLMService.generate_response` (lines
30-41) catches every backend exception and answers with the rule-based
fallback, so a generation failure never propagates to the caller. -/

inductive LLMBackend where
  | ok (text : String)
  | fails (err : String)
deriving DecidableEq

/-- `_generate_fallback_response` (llm_service.py lines 71-95). -/
def fallbackResponse (prompt : String) : String :=
  let p := pyLower prompt
  if pySub "why do you want to work" p then
    "I am excited about this opportunity because it aligns with my career goals and allows me to contribute my skills and experience to a dynamic team. I am particularly drawn to the company's mission and the chance to work on innovative projects."
  else if pySub "greatest strength" p then
    "My greatest strength is my ability to quickly learn new technologies and adapt to changing requirements. I am also highly organized and detail-oriented, which helps me deliver high-quality work consistently."
  else if pySub "greatest weakness" p then
    "My greatest weakness is that I sometimes spend too much time perfecting details. However, I have learned to balance this with meeting deadlines and focusing on the most important aspects of a project."
  else if pySub "salary expectation" p then
    "I am open to discussing salary based on the responsibilities of the role and my experience level. I am primarily focused on finding the right opportunity to grow and contribute."
  else if pySub "tell me about yourself" p then
    "I am a passionate professional with experience in software development. I enjoy solving complex problems and working collaboratively with teams. I am always eager to learn new technologies and take on challenging projects."
  else if pySub "experience with" p then
    "I have hands-on experience with various technologies and frameworks. I am comfortable working with both frontend and backend development, and I enjoy learning new tools and methodologies."
  else
    "I am excited about this opportunity and believe my skills and experience make me a strong candidate for this position. I am eager to contribute to the team and help achieve the company's goals."

/-- `generate_response` (llm_service.py lines 30-41): a backend failure is
caught and replaced by the fallback response; it never raises. -/
def generateResponse (backend : LLMBackend) (prompt : String) : String :=
  match backend with
  | .ok t => t
  | .fails _ => fallbackResponse prompt

/-- The prompt built by `generate_form_response` (llm_service.py lines
99-110); `skills` is the comma-joined skill list. -/
def formPrompt (question skills experience education : String) : String :=
  "\n        Generate a professional response for the following job application question:\n        \n        Question: " ++ question ++
  "\n        \n        Context about the candidate:\n        - Skills: " ++ skills ++
  "\n        - Experience: " ++ experience ++
  "\n        - Education: " ++ education ++
  "\n        \n        Provide a concise, professional response that highlights relevant experience and skills. Keep it under 150 words.\n        "

def generateFormResponse (backend : LLMBackend) (question skills experience education : String) :
    String :=
  generateResponse backend (formPrompt question skills experience education)

/-- `fill_open_ended_questions` (form_filler.py lines 257-279): each
textarea is paired with its resolved question text (empty when none was
found) and the backend outcome for its generation call.  A textarea with a
falsy (empty) question is skipped; otherwise it is filled with the
generated (or fallback) answer.  Nothing in the loop can raise: the LLM
call recovers internally, so the surrounding try/except is never entered
by a generation failure.  Returns the ordered list of texts filled. -/
def fillOpenEnded (skills experience education : String)
    (tareas : List (String × LLMBackend)) : List String :=
  tareas.filterMap fun qb =>
    if qb.1 == "" then none
    else some (generateFormResponse qb.2 qb.1 skills experience education)

/-! ### Submission (form_filler.py, `submit_application`, lines 301-353)

Oracles: whether some submit selector matched (`buttonFound`), whether the
click or the settling wait raised (`clickError`), and the outcome of the
page-content fetch (`contentResult`). -/

structure SubmitEnv where
  buttonFound : Bool
  clickError : Option String
  contentResult : Except String String

structure SubmitResult where
  submitted : Bool
  successful : Bool
  message : String
deriving DecidableEq

/-- The fixed success-indicator list (lines 326-331). -/
def success_indicators : List String :=
  ["Thank you", "Application submitted", "Success", "Submitted successfully"]

def submitApplication (env : SubmitEnv) : SubmitResult :=
  if env.buttonFound then
    match env.clickError with
    | some e => ⟨false, false, "Error submitting application: " ++ e⟩
    | none =>
      match env.contentResult with
      | .error e => ⟨false, false, "Error submitting application: " ++ e⟩
      | .ok content =>
        let isSuccessful :=
          success_indicators.any fun ind => pySub (pyLower ind) (pyLower content)
        ⟨true, isSuccessful,
          if isSuccessful then "Application submitted successfully"
          else "Application submitted (status unclear)"⟩
  else ⟨false, false, "Submit button not found"⟩

/-! ### Orchestrator (main.py, `process_application`, lines 226-301)

The fallible awaited steps are the `JobApplicationFiller()` construction
(its `LLMService()` raises when no API key is set), `navigate_to_application`,
`detect_form_fields`, `fill_personal_info` and the final `close()`; each is
an `Option String` oracle (`some msg` = the step raised with that message).
`fill_work_history`, `fill_diversity_info` and `fill_open_ended_questions`
catch all their exceptions internally and `submit_application` returns a
result dict, so none of them can raise; their status writes in
`process_application` are unconditional.  The `details` payload set next to
the completed write is not modelled. -/

inductive Stage where
  | starting
  | processing
  | completed
  | error
deriving DecidableEq

structure RunStatus where
  stage : Stage
  message : String
  progress : Nat
deriving DecidableEq

structure RunEnv where
  initError : Option String
  navigateError : Option String
  detectError : Option String
  fillPersonalError : Option String
  closeError : Option String
deriving DecidableEq

/-- The except branch (lines 298-301). -/
def errorStatus (m : String) : RunStatus := ⟨.error, "Error: " ++ m, 0⟩

/-- The sequence of status values a run writes to the shared store, in
order: the initial value written by `start_application` (lines 128-133)
followed by every mutation block of `process_application`. -/
def runTrace (env : RunEnv) : List RunStatus :=
  ⟨.starting, "Initializing application...", 0⟩ ::
  ⟨.processing, "Analyzing job application form...", 10⟩ ::
  match env.initError with
  | some m => [errorStatus m]
  | none =>
    ⟨.processing, "Navigating to application page...", 20⟩ ::
    match env.navigateError with
    | some m => [errorStatus m]
    | none =>
      ⟨.processing, "Detecting form fields...", 40⟩ ::
      match env.detectError with
      | some m => [errorStatus m]
      | none =>
        ⟨.processing, "Filling personal information...", 60⟩ ::
        match env.fillPersonalError with
        | some m => [errorStatus m]
        | none =>
          ⟨.processing, "Filling work history...", 70⟩ ::
          ⟨.processing, "Handling diversity questions...", 80⟩ ::
          ⟨.processing, "Generating open-ended responses...", 90⟩ ::
          ⟨.processing, "Submitting application...", 95⟩ ::
          ⟨.completed, "Application submitted successfully!", 100⟩ ::
          match env.closeError with
          | some m => [errorStatus m]
          | none => []

/-- The status left in the store when the run's task finishes. -/
def finalStatus (env : RunEnv) : RunStatus :=
  (runTrace env).getLastD ⟨.starting, "", 0⟩

/-- Whether `filler.close()` is ever invoked: in the source it appears only
at line 296, after every other step of the try block has succeeded; the
except branch performs no cleanup. -/
def closeInvoked (env : RunEnv) : Bool :=
  env.initError.isNone && env.navigateError.isNone &&
    env.detectError.isNone && env.fillPersonalError.isNone

/-- The failure that actually reaches the except branch: the first step to
raise, in execution order. -/
def firstRunError (env : RunEnv) : Option String :=
  match env.initError with
  | some m => some m
  | none =>
    match env.navigateError with
    | some m => some m
    | none =>
      match env.detectError with
      | some m => some m
      | none =>
        match env.fillPersonalError with
        | some m => some m
        | none => env.closeError

/-! ### Auxiliary concrete data -/

/-- The sample applicant of `main.py`'s `/api/sample-personal-info`
endpoint (lines 153-192), restricted to the attributes the value mapper
reads. -/
def samplePI : PersonalInfo :=
  { first_name := "John"
    last_name := "Doe"
    email := "john.doe@email.com"
    phone := "+1-555-123-4567"
    address := { street := "123 Main St", city := "New York", state := "NY", zip_code := "10001" } }

/-- The classifier as claim C3 words it: every keyword substring test is
applied to the combination of `name` and `placeholder`.  Stated only to be
compared against `analyzeFieldType`, which tests the "phone"/"tel" and
"date" keywords on the name alone. -/
def classifierSpecC3 (name placeholder rawType : String) : String :=
  if pySub "email" (pyLower name) || pySub "email" (pyLower placeholder) then "email"
  else if pySub "phone" (pyLower name) || pySub "phone" (pyLower placeholder)
      || pySub "tel" (pyLower name) || pySub "tel" (pyLower placeholder) then "phone"
  else if pySub "date" (pyLower name) || pySub "date" (pyLower placeholder)
      || rawType == "date" then "date"
  else if rawType == "file" then "file"
  else if rawType == "radio" || rawType == "checkbox" then "select"
  else rawType

/-! ## Theorems -/

/-! ### Substring-test bridge -/

theorem subAt_true_iff (sub l : List Char) : subAt sub l = true ↔ sub <:+: l := by
  induction l with
  | nil =>
    simp [subAt, List.isEmpty_iff]
  | cons c t ih =>
    simp only [subAt, Bool.or_eq_true, ih, List.isPrefixOf_iff_prefix]
    constructor
    · rintro (h | h)
      · exact h.isInfix
      · exact List.infix_cons h
    · intro h
      exact List.infix_cons_iff.mp h

theorem pySub_true_iff (sub hay : String) :
    pySub sub hay = true ↔ sub.toList <:+: hay.toList := subAt_true_iff _ _

theorem pySub_self_append (pre m : String) : pySub m (pre ++ m) = true := by
  rw [pySub_true_iff]
  have h : (pre ++ m).toList = pre.toList ++ m.toList := by
    simp [String.toList]
  rw [h]
  exact (List.suffix_append pre.toList m.toList).isInfix

/-! ### Value-mapper lemmas -/

theorem tryRule_eq (n l : String) (v : Option String) (pats : List String) :
    tryRule n l v pats =
      if (pats.any fun pat => patHit pat n l) && v.isSome then v else none := by
  induction pats with
  | nil => simp [tryRule]
  | cons pt rest ih =>
    simp only [tryRule, List.any_cons]
    by_cases hp : patHit pt n l = true
    · cases v with
      | none => simpa [hp] using ih
      | some x => simp [hp]
    · have hp' : patHit pt n l = false := by simpa using hp
      rw [if_neg hp]
      simp only [hp', Bool.false_or]
      exact ih

theorem getFieldValueAux_eq (n l : String) (p : PersonalInfo)
    (rules : List (String × List String)) :
    getFieldValueAux n l p rules =
      (rules.find? fun r =>
          (r.2.any fun pat => patHit pat n l) && (infoValue r.1 p).isSome).bind
        fun r => infoValue r.1 p := by
  induction rules with
  | nil => simp [getFieldValueAux]
  | cons r rest ih =>
    obtain ⟨key, pats⟩ := r
    rw [getFieldValueAux, tryRule_eq]
    by_cases h : ((pats.any fun pat => patHit pat n l) && (infoValue key p).isSome) = true
    · have hfind : (List.find? (fun r =>
            (r.2.any fun pat => patHit pat n l) && (infoValue r.1 p).isSome)
          ((key, pats) :: rest)) = some (key, pats) :=
        List.find?_cons_of_pos rest h
      rw [hfind, if_pos h]
      obtain ⟨x, hx⟩ := Option.isSome_iff_exists.mp (Bool.and_elim_right h)
      simp [hx]
    · have hfind : (List.find? (fun r =>
            (r.2.any fun pat => patHit pat n l) && (infoValue r.1 p).isSome)
          ((key, pats) :: rest)) =
          List.find? (fun r =>
            (r.2.any fun pat => patHit pat n l) && (infoValue r.1 p).isSome) rest :=
        List.find?_cons_of_neg rest h
      rw [hfind, if_neg h]
      exact ih

theorem find?_congr_of_mem {α : Type} (p q : α → Bool) (l : List α)
    (h : ∀ a ∈ l, p a = q a) : l.find? p = l.find? q := by
  induction l with
  | nil => rfl
  | cons a t ih =>
    have ha := h a (by simp)
    cases hq : q a with
    | false =>
      rw [List.find?_cons_of_neg _ (by rw [ha, hq]; simp),
        List.find?_cons_of_neg _ (by rw [hq]; simp)]
      exact ih fun x hx => h x (by simp [hx])
    | true =>
      rw [List.find?_cons_of_pos _ (by rw [ha, hq]),
        List.find?_cons_of_pos _ hq]

theorem infoValue_isSome_of_mem (p : PersonalInfo) :
    ∀ r ∈ field_mappings, (infoValue r.1 p).isSome = true := by
  intro r hr
  fin_cases hr <;> simp [infoValue]

/-- C1: for every classified field and applicant profile, `_get_field_value`
returns a value iff some pattern of some mapping rule is a case-insensitive
substring of the field's name or label, and the returned value is the
profile attribute of the first matching rule in table order. -/
theorem value_mapper_first_match (name label : String) (p : PersonalInfo) :
    ((getFieldValue name label p).isSome = true ↔
      ∃ r ∈ field_mappings, ∃ pat ∈ r.2,
        (pat.toList <:+: (pyLower name).toList ∨ pat.toList <:+: (pyLower label).toList)) ∧
    (∀ r, (field_mappings.find? fun r =>
        r.2.any fun pat => patHit pat (pyLower name) (pyLower label)) = some r →
      getFieldValue name label p = infoValue r.1 p) := by
  have hcong : (field_mappings.find? fun r =>
        (r.2.any fun pat => patHit pat (pyLower name) (pyLower label)) &&
          (infoValue r.1 p).isSome) =
      (field_mappings.find? fun r =>
        r.2.any fun pat => patHit pat (pyLower name) (pyLower label)) := by
    apply find?_congr_of_mem
    intro a ha
    rw [infoValue_isSome_of_mem p a ha]
    simp
  have hmain : getFieldValue name label p =
      (field_mappings.find? fun r =>
        r.2.any fun pat => patHit pat (pyLower name) (pyLower label)).bind
        fun r => infoValue r.1 p := by
    rw [getFieldValue, getFieldValueAux_eq, hcong]
  have hiff : ∀ r : String × List String,
      (r.2.any fun pat => patHit pat (pyLower name) (pyLower label)) = true ↔
        ∃ pat ∈ r.2,
          (pat.toList <:+: (pyLower name).toList ∨ pat.toList <:+: (pyLower label).toList) := by
    intro r
    rw [List.any_eq_true]
    simp only [patHit, Bool.or_eq_true, pySub_true_iff]
  constructor
  · rw [hmain]
    cases hf : (field_mappings.find? fun r =>
        r.2.any fun pat => patHit pat (pyLower name) (pyLower label)) with
    | none =>
      simp only [Option.none_bind, Option.isSome_none, Bool.false_eq_true, false_iff]
      rintro ⟨r, hr, pat, hpat, hinf⟩
      have := List.find?_eq_none.mp hf r hr
      exact this ((hiff r).mpr ⟨pat, hpat, hinf⟩)
    | some r =>
      have hmem := List.mem_of_find?_eq_some hf
      have hpred := List.find?_some hf
      simp only [Option.some_bind, infoValue_isSome_of_mem p r hmem, true_iff]
      obtain ⟨pat, hpat, hinf⟩ := (hiff r).mp hpred
      exact ⟨r, hmem, pat, hpat, hinf⟩
  · intro r hr
    rw [hmain, hr]
    rfl

/-- Witness for C1 at the spec's end-to-end scenario A: a field named
`applicant_first_name` with the sample profile maps to `"John"` through the
first rule of the table. -/
theorem value_mapper_first_match_witness :
    getFieldValue "applicant_first_name" "" samplePI = some "John" := by
  have h := (value_mapper_first_match "applicant_first_name" "" samplePI).2
    ("first_name", ["first", "fname", "given"]) (by decide)
  simpa [infoValue, samplePI] using h

/-! ### Field-classifier theorems -/

/-- C3 counterexample: the claim applies every keyword test to the
combination of name and placeholder, so a placeholder containing "phone"
would classify as phone; `_analyze_field` tests "phone"/"tel" on the name
only and leaves this field as raw text. -/
theorem classifier_placeholder_counterexample :
    classifierSpecC3 "field1" "Phone number" "text" = "phone" ∧
    analyzeFieldType "field1" "Phone number" "text" = "text" := by
  constructor <;> rfl

/-- C3 amended: the override rules in `_analyze_field`, in order and with
the first match winning — "email" is tested on name and placeholder, while
"phone"/"tel" and "date" are tested on the name only; a name containing
both "email" and "date" classifies as email. -/
theorem classifier_rules (name placeholder rawType : String) :
    (emailHit name placeholder = true →
      analyzeFieldType name placeholder rawType = "email") ∧
    (emailHit name placeholder = false → phoneHit name = true →
      analyzeFieldType name placeholder rawType = "phone") ∧
    (emailHit name placeholder = false → phoneHit name = false →
      dateHit name rawType = true →
      analyzeFieldType name placeholder rawType = "date") ∧
    (emailHit name placeholder = false → phoneHit name = false →
      dateHit name rawType = false → rawType = "file" →
      analyzeFieldType name placeholder rawType = "file") ∧
    (emailHit name placeholder = false → phoneHit name = false →
      dateHit name rawType = false → (rawType = "radio" ∨ rawType = "checkbox") →
      analyzeFieldType name placeholder rawType = "select") ∧
    (emailHit name placeholder = false → phoneHit name = false →
      dateHit name rawType = false → rawType ≠ "file" → rawType ≠ "radio" →
      rawType ≠ "checkbox" →
      analyzeFieldType name placeholder rawType = rawType) ∧
    analyzeFieldType "email_date" "" "text" = "email" := by
  refine ⟨?_, ?_, ?_, ?_, ?_, ?_, rfl⟩
  · intro h1
    simp [analyzeFieldType, h1]
  · intro h1 h2
    simp [analyzeFieldType, h1, h2]
  · intro h1 h2 h3
    simp [analyzeFieldType, h1, h2, h3]
  · intro h1 h2 h3 h4
    subst h4
    simp [analyzeFieldType, h1, h2, h3]
  · rintro h1 h2 h3 (h4 | h4) <;> subst h4 <;>
      simp [analyzeFieldType, h1, h2, h3]
  · intro h1 h2 h3 h4 h5 h6
    simp [analyzeFieldType, h1, h2, h3, h4, h5, h6]

/-- Witness for C3's amended theorem: a field named `my_phone` with raw
type text classifies as phone via the second rule. -/
theorem classifier_rules_witness :
    analyzeFieldType "my_phone" "" "text" = "phone" :=
  (classifier_rules "my_phone" "" "text").2.1 (by decide) (by decide)

/-- C9 counterexample: a raw `number` input whose attributes trip no
override keeps raw type "number", which is outside the spec's seven-value
type enumeration. -/
theorem classified_type_outside_enum :
    analyzeFieldType "amount" "" "number" = "number" ∧
    "number" ∉ ["text", "email", "phone", "date", "file", "select", "textarea"] := by
  constructor
  · rfl
  · decide

/-- C9 amended: for every raw type the scan can produce, the classified
type lies in the spec's enumeration extended with the retained raw types
"tel" and "number". -/
theorem classified_type_enum (name placeholder rawType : String)
    (h : rawType ∈ rawScanTypes) :
    analyzeFieldType name placeholder rawType ∈
      ["text", "email", "phone", "date", "file", "select", "textarea", "tel", "number"] := by
  unfold analyzeFieldType
  split_ifs with h1 h2 h3 h4 h5
  · simp
  · simp
  · simp
  · simp
  · simp
  · fin_cases h <;> simp_all

/-- Witness for C9's amended theorem at the counterexample input. -/
theorem classified_type_enum_witness :
    analyzeFieldType "amount" "" "number" ∈
      ["text", "email", "phone", "date", "file", "select", "textarea", "tel", "number"] :=
  classified_type_enum "amount" "" "number" (by decide)

/-- C2 (code bug): `fill_personal_info` filters on membership in
`['text', 'email', 'tel']` although the classifier renames phone-like
fields to `phone`, so a field named "phone" is classified phone, the
mapping table would yield the profile's phone number, and the fill stage
nevertheless skips it; conversely a raw `tel` input named "mobile" keeps
classified type `tel` and is filled by that stage. -/
theorem phone_field_skipped_by_fill :
    analyzeFieldType "phone" "" "text" = "phone" ∧
    getFieldValue "phone" "" samplePI = some "+1-555-123-4567" ∧
    fillPersonalInfo [{ name := "phone", type := "phone" }] samplePI = [] ∧
    fillPersonalInfo [{ name := "mobile", type := analyzeFieldType "mobile" "" "tel" }] samplePI =
      [("mobile", "+1-555-123-4567")] := by
  refine ⟨rfl, rfl, rfl, rfl⟩

/-! ### Orchestrator theorems -/

/-- C4: along every run's status trace, progress is non-decreasing at every
step whose resulting stage is not `error`; a final status in the
`completed` stage has progress exactly 100; and when some step raises, the
final status is the error status with progress 0 and a message carrying
the failure description. -/
theorem run_progress_invariants (env : RunEnv) :
    List.Chain' (fun a b => b.stage ≠ Stage.error → a.progress ≤ b.progress) (runTrace env) ∧
    ((finalStatus env).stage = Stage.completed → (finalStatus env).progress = 100) ∧
    (∀ m, firstRunError env = some m →
      finalStatus env = errorStatus m ∧ pySub m (finalStatus env).message = true) := by
  obtain ⟨i, n, d, f, c⟩ := env
  cases i <;> cases n <;> cases d <;> cases f <;> cases c <;>
    refine ⟨?_, ?_, ?_⟩ <;>
    simp [runTrace, finalStatus, firstRunError, errorStatus, List.chain'_cons,
      pySub_self_append]

/-- Witness for C4: a run whose navigation step raises ends in the error
status carrying the failure text. -/
theorem run_progress_invariants_witness :
    finalStatus ⟨none, some "Failed to navigate", none, none, none⟩ =
      errorStatus "Failed to navigate" :=
  ((run_progress_invariants ⟨none, some "Failed to navigate", none, none, none⟩).2.2
    "Failed to navigate" rfl).1

/-- C7 counterexample: a run whose navigation raises transitions to the
error stage and never invokes `filler.close()` — the except branch of
`process_application` performs no cleanup, so the browser session is not
released on that exit path. -/
theorem session_not_closed_on_error :
    closeInvoked ⟨none, some "Failed to navigate", none, none, none⟩ = false ∧
    (finalStatus ⟨none, some "Failed to navigate", none, none, none⟩).stage = Stage.error := by
  constructor <;> rfl

/-- C7 amended: `filler.close()` is invoked exactly on the runs that reach
the `completed` stage; a run that transitions to `error` beforehand leaks
the session. -/
theorem close_invoked_iff_completed (env : RunEnv) :
    closeInvoked env = true ↔
      (⟨Stage.completed, "Application submitted successfully!", 100⟩ : RunStatus) ∈
        runTrace env := by
  obtain ⟨i, n, d, f, c⟩ := env
  cases i <;> cases n <;> cases d <;> cases f <;> cases c <;>
    simp [closeInvoked, runTrace, errorStatus, RunStatus.mk.injEq]

/-! ### Submission theorems -/

/-- C5: once a submit control was found and activated and the page content
was fetched, `successful` is true iff the content contains, case-
insensitively, one of the four fixed keywords; with no keyword match the
outcome is `submitted = true`, `successful = false` with the "unclear"
message, not an error. -/
theorem submit_success_detection (env : SubmitEnv) (content : String)
    (hb : env.buttonFound = true) (hc : env.clickError = none)
    (hr : env.contentResult = Except.ok content) :
    ((submitApplication env).successful = true ↔
      ∃ ind ∈ success_indicators,
        (pyLower ind).toList <:+: (pyLower content).toList) ∧
    (submitApplication env).submitted = true ∧
    ((submitApplication env).successful = false →
      (submitApplication env).message = "Application submitted (status unclear)") := by
  obtain ⟨b, ce, cr⟩ := env
  simp only at hb hc hr
  subst hb hc hr
  cases hs : success_indicators.any fun ind => pySub (pyLower ind) (pyLower content) with
  | false =>
    have heq : submitApplication ⟨true, none, Except.ok content⟩ =
        ⟨true, false, "Application submitted (status unclear)"⟩ := by
      simp [submitApplication, hs]
    rw [heq]
    refine ⟨?_, rfl, fun _ => rfl⟩
    simp only [Bool.false_eq_true, false_iff]
    rw [List.any_eq_false] at hs
    rintro ⟨ind, hind, hinf⟩
    exact absurd ((pySub_true_iff _ _).mpr hinf) (by simpa using hs ind hind)
  | true =>
    have heq : submitApplication ⟨true, none, Except.ok content⟩ =
        ⟨true, true, "Application submitted successfully"⟩ := by
      simp [submitApplication, hs]
    rw [heq]
    refine ⟨?_, rfl, fun hfalse => by simp at hfalse⟩
    simp only [true_iff]
    obtain ⟨ind, hind, hp⟩ := List.any_eq_true.mp hs
    exact ⟨ind, hind, (pySub_true_iff _ _).mp hp⟩

/-- Witness for C5 at the spec's end-to-end scenario B: page content
"Thank you for applying" is detected as a successful submission. -/
theorem submit_success_detection_witness :
    (submitApplication ⟨true, none, Except.ok "Thank you for applying"⟩).successful = true :=
  ((submit_success_detection ⟨true, none, Except.ok "Thank you for applying"⟩
    "Thank you for applying" rfl rfl rfl).1).mpr ⟨"Thank you", by decide, by decide⟩

/-- C10: `submit_application` returns a structured outcome on every path.
With no submit control it reports "Submit button not found"; when the
click/settling wait raises, or the content fetch raises, the outcome is
`submitted = false`, `successful = false` with a message carrying the
error description — no exception propagates. -/
theorem submit_never_propagates (env : SubmitEnv) :
    (env.buttonFound = false →
      submitApplication env = ⟨false, false, "Submit button not found"⟩) ∧
    (∀ e, env.buttonFound = true → env.clickError = some e →
      submitApplication env = ⟨false, false, "Error submitting application: " ++ e⟩) ∧
    (∀ e, env.buttonFound = true → env.clickError = none →
      env.contentResult = Except.error e →
      submitApplication env = ⟨false, false, "Error submitting application: " ++ e⟩) ∧
    (∀ c, env.buttonFound = true → env.clickError = none →
      env.contentResult = Except.ok c →
      (submitApplication env).submitted = true) := by
  obtain ⟨b, ce, cr⟩ := env
  refine ⟨?_, ?_, ?_, ?_⟩
  · intro hb
    simp only at hb
    subst hb
    rfl
  · intro e hb hc
    simp only at hb hc
    subst hb hc
    rfl
  · intro e hb hc hr
    simp only at hb hc hr
    subst hb hc hr
    rfl
  · intro c hb hc hr
    simp only at hb hc hr
    subst hb hc hr
    rfl

/-- Witness for C10: a click failure yields the structured error outcome. -/
theorem submit_never_propagates_witness :
    submitApplication ⟨true, some "Timeout", Except.ok ""⟩ =
      ⟨false, false, "Error submitting application: Timeout"⟩ :=
  (submit_never_propagates ⟨true, some "Timeout", Except.ok ""⟩).2.1 "Timeout" rfl rfl

/-! ### Diversity-fill theorems -/

/-- C6 counterexample: with two fields both matching the veteran category,
`fill_diversity_info` fills both, not only the first; the claim's
"fills only the first field per category" is false on this input. -/
theorem diversity_fills_every_match :
    fillDiversityInfo
      [{ name := "veteran_status", type := "select" },
       { name := "veteran_status_2", type := "select" }] [] =
      [("veteran_status", "Prefer not to say"),
       ("veteran_status_2", "Prefer not to say")] := by
  rfl

/-- C6 amended: diversity filling fills every field whose name or label
matches a category pattern — once per matching (category, pattern) pair,
not only the first field per category — with the profile's value for that
category, defaulting to "Prefer not to say" when the profile lacks it. -/
theorem diversity_fill_characterization (fields : List FormField)
    (dinfo : List (String × String)) (nm v : String) :
    ((nm, v) ∈ fillDiversityInfo fields dinfo ↔
      ∃ f ∈ fields, f.name = nm ∧ ∃ cp ∈ diversity_patterns,
        (∃ pat ∈ cp.2, patHit pat (pyLower f.name) (pyLower f.label) = true) ∧
        v = dictGet dinfo cp.1 "Prefer not to say") ∧
    (∀ cat, dinfo.find? (fun kv => kv.1 == cat) = none →
      dictGet dinfo cat "Prefer not to say" = "Prefer not to say") := by
  constructor
  · simp only [fillDiversityInfo, List.mem_flatMap, List.mem_filterMap]
    constructor
    · rintro ⟨f, hf, cp, hcp, pat, hpat, hif⟩
      by_cases h : patHit pat (pyLower f.name) (pyLower f.label) = true
      · rw [if_pos h] at hif
        obtain ⟨h1, h2⟩ := Prod.mk.injEq .. ▸ Option.some.injEq .. ▸ hif
        exact ⟨f, hf, h1.symm ▸ rfl, cp, hcp, ⟨pat, hpat, h⟩, h2.symm⟩
      · rw [if_neg h] at hif
        exact absurd hif (Option.some_ne_none _).symm
    · rintro ⟨f, hf, hnm, cp, hcp, ⟨pat, hpat, hhit⟩, hv⟩
      exact ⟨f, hf, cp, hcp, pat, hpat, by rw [if_pos hhit, hnm, hv]⟩
  · intro cat h
    simp [dictGet, h]

/-- Witness for C6's amended theorem: an absent category defaults to
"Prefer not to say". -/
theorem diversity_default_witness :
    dictGet [] "veteran" "Prefer not to say" = "Prefer not to say" :=
  (diversity_fill_characterization [] [] "" "").2 "veteran" rfl

/-! ### Open-ended-question theorems -/

/-- C8 counterexample: a text-generation failure for a question does not
skip its textarea — `generate_response` recovers internally and the
textarea is filled with the deterministic fallback answer. -/
theorem open_ended_failure_still_fills :
    (fillOpenEnded "" "" ""
      [("Why do you want to work here?", LLMBackend.fails "API error")]).length = 1 ∧
    fillOpenEnded "" "" ""
      [("Why do you want to work here?", LLMBackend.fails "API error")] =
      [fallbackResponse (formPrompt "Why do you want to work here?" "" "" "")] := by
  constructor <;> rfl

/-- C8 amended: a generation failure on one textarea is absorbed inside the
collaborator — that textarea is filled with the fallback answer (or the
position is skipped only when its question text is empty), every other
textarea before and after is processed exactly as if no failure occurred,
and nothing escapes to abort the stage. -/
theorem open_ended_failure_isolated (skills experience education q e : String)
    (pre post : List (String × LLMBackend)) :
    fillOpenEnded skills experience education (pre ++ (q, LLMBackend.fails e) :: post) =
      fillOpenEnded skills experience education pre ++
      (if q == "" then [] else [fallbackResponse (formPrompt q skills experience education)]) ++
      fillOpenEnded skills experience education post := by
  simp only [fillOpenEnded, List.filterMap_append, List.filterMap_cons]
  by_cases hq : (q == "") = true
  · simp [hq, generateFormResponse, generateResponse]
  · simp only [hq, if_false, generateFormResponse, generateResponse]
    simp [List.append_assoc]

end AppFiller
